import Mathlib

/-!
# Verification of the S3-CSV-to-Databricks sync endpoint

Shallow embedding of `src/main.py` (the single FastAPI request handler
`read_csv_from_s3` and its helper functions `get_s3_client`,
`get_databricks_connection`, `get_table_schema`, `update_table_schema`),
together with theorems settling the specification claims.

External collaborators (boto3, pandas, the Databricks SQL client, the network)
are modelled as oracles inside an `Env` record: each oracle field records the
outcome the external world would return for the corresponding call.  The
handler itself is translated statement by statement from the Python source;
its observable behaviour is an `Outcome`: the HTTP response, the ordered
trace of external effects it performed, and the final state of the local
temporary file.
-/

namespace FastAPIDataBricks

/-- Module-level configuration read from the environment by `os.getenv`
(`main.py` lines 14-23).  `none` models an absent environment variable;
`AWS_REGION` has the default `us-east-2` applied at load time. -/
structure Config where
  aws_access_key_id : Option String
  aws_secret_access_key : Option String
  aws_region : String
  s3_bucket : Option String
  databricks_host : Option String
  databricks_token : Option String
  databricks_http_path : Option String
deriving Repr, DecidableEq

/-- The kind of exception raised by a failed `s3_client.download_file` call
(boto3's exceptions are opaque to the handler, which catches them all). -/
inductive FetchError where
  | noSuchKey
  | accessDenied
  | other (msg : String)
deriving Repr, DecidableEq

/-- The message attached to a fetch exception, interpolated into the
`detail` field of the error response. -/
def FetchError.message : FetchError → String
  | .noSuchKey => "404 Not Found"
  | .accessDenied => "403 Forbidden"
  | .other m => m

/-- Observable external effects of one request, in the order the handler
performs them. `downloadFile` is the `s3_client.download_file` call
(line 108); `createLocalFile` is the local temporary file coming into
existence when that call succeeds; `removeTempFile` is `os.remove`
(line 122); `connectDatabricks` is a `databricks.sql.connect` call, tagged
with the call site (`forAlter = true` when opened by `update_table_schema`,
`false` when opened by `get_table_schema`); `describeTable` and
`alterAddColumn` are the two kinds of `cursor.execute` statements. -/
inductive Effect where
  | downloadFile (bucket : Option String) (key : String)
  | createLocalFile (path : String)
  | removeTempFile (path : String)
  | connectDatabricks (forAlter : Bool)
  | describeTable (table : String)
  | alterAddColumn (table : String) (col : String)
deriving Repr, DecidableEq

/-- `True` for the two local-file effects. -/
def Effect.isFileEffect : Effect → Bool
  | .createLocalFile _ => true
  | .removeTempFile _ => true
  | _ => false

/-- `True` exactly for the `os.remove` effect. -/
def Effect.isRemoveTemp : Effect → Bool
  | .removeTempFile _ => true
  | _ => false

/-- `True` for every effect that talks to the remote Databricks engine. -/
def Effect.isDbEffect : Effect → Bool
  | .connectDatabricks _ => true
  | .describeTable _ => true
  | .alterAddColumn _ _ => true
  | _ => false

/-- `True` for the effects of the schema-alteration phase: an
`ALTER TABLE ... ADD COLUMN` statement, or a connection opened by
`update_table_schema`. -/
def Effect.isAlterPhase : Effect → Bool
  | .alterAddColumn _ _ => true
  | .connectDatabricks forAlter => forAlter
  | _ => false

/-- Whether the local temporary file exists after the given effect trace has
run: a successful download creates it, `os.remove` deletes it. -/
def fileOnDiskAfter (tr : List Effect) : Bool :=
  tr.foldl
    (fun s e =>
      match e with
      | .createLocalFile _ => true
      | .removeTempFile _ => false
      | _ => s)
    false

/-- The columns named `ALTER TABLE _ ADD COLUMN _` in a trace, in order. -/
def alteredColumns (tr : List Effect) : List String :=
  tr.filterMap
    (fun e =>
      match e with
      | .alterAddColumn _ col => some col
      | _ => none)

/-- The parsed CSV (`df = pd.read_csv(...)`, line 115): the header row gives
the column names, every later line is a row of raw cell strings mapped
positionally to the columns. -/
structure CsvTable where
  columns : List String
  rows : List (List String)
deriving Repr, DecidableEq

/-- Modelled from the spec: the CSV parsing library (`pandas.read_csv`) is an
external collaborator whose internal algorithm is out of scope; per the
spec, the header row defines the column names, all subsequent rows map
positionally to the header, and input with no header line is malformed
(pandas raises `EmptyDataError`).  The object content is modelled as its
lines, each already split into delimited fields. -/
def parseCsv (content : List (List String)) : Except String CsvTable :=
  match content with
  | [] => .error "No columns to parse from file"
  | header :: rows => .ok { columns := header, rows := rows }

/-- One element of `df.to_dict(orient=records)` (line 146): a row becomes a
mapping from each column name to the positionally matching cell, `none`
(pandas `NaN`) when the row is shorter than the header. -/
def record (cols : List String) (fields : List String) : List (String × Option String) :=
  cols.enum.map (fun p => (p.2, fields.get? p.1))

/-- `df.to_dict(orient=records)`: all rows, in file order. -/
def recordsOf (df : CsvTable) : List (List (String × Option String)) :=
  df.rows.map (record df.columns)

/-- Line 135: `missing_columns = [col for col in df.columns if col not in
current_schema]`. -/
def missingColumns (cols schema : List String) : List String :=
  cols.filter (fun col => !(schema.contains col))

/-- Line 132 together with line 128: the schema actually used downstream —
the queried schema on success, the empty list when the query raised. -/
def schemaOrEmpty (r : Except String (List String)) : List String :=
  match r with
  | .ok s => s
  | .error _ => []

/-- The oracles for one request: the configuration plus the outcome the
external world returns for each call the handler can make.
`s3_client_ok` is whether `boto3.client` succeeds (line 28);
`s3_object` is the outcome of downloading the requested object when the
bucket is configured; `query_conn_ok` / `alter_conn_ok` are whether the
`databricks.sql.connect` call made by `get_table_schema` respectively
`update_table_schema` succeeds (given host and token are present);
`describe_rows` is the outcome of `DESCRIBE TABLE` as (name, type) pairs;
`alter_ok` is the per-column outcome of `ALTER TABLE ... ADD COLUMN`. -/
structure Env where
  config : Config
  s3_client_ok : Bool
  s3_object : Except FetchError (List (List String))
  query_conn_ok : Bool
  alter_conn_ok : Bool
  describe_rows : Except String (List (String × String))
  alter_ok : String → Bool

/-- `get_databricks_connection` (lines 37-58).  The debug print of
`DATABRICKS_TOKEN[:5]` runs before `connect` is called, so an absent token
raises `TypeError` without any connection attempt; likewise
`DATABRICKS_HOST.replace` raises `AttributeError` when the host is absent.
Only when both are present is `connect` attempted, its outcome given by
`conn_ok`.  Every failure is re-raised as an HTTP 500 with the message
below.  Returns the connection outcome and the effects performed. -/
def get_databricks_connection (cfg : Config) (conn_ok : Bool) (forAlter : Bool) :
    Except String Unit × List Effect :=
  match cfg.databricks_token, cfg.databricks_host with
  | none, _ =>
      (.error "Error connecting to Databricks: TypeError: NoneType is not subscriptable", [])
  | some _, none =>
      (.error "Error connecting to Databricks: AttributeError: NoneType has no attribute replace", [])
  | some _, some _ =>
      if conn_ok then (.ok (), [.connectDatabricks forAlter])
      else (.error "Error connecting to Databricks", [.connectDatabricks forAlter])

/-- `get_table_schema` (lines 60-74): open a connection, run
`DESCRIBE TABLE`, return the first element of every result row; any
exception is caught and re-raised as an HTTP 500. -/
def get_table_schema (env : Env) (table_name : String) :
    Except String (List String) × List Effect :=
  match get_databricks_connection env.config env.query_conn_ok false with
  | (.error e, tr) => (.error ("Error retrieving table schema: " ++ e), tr)
  | (.ok _, tr) =>
      match env.describe_rows with
      | .ok rows => (.ok (rows.map Prod.fst), tr ++ [.describeTable table_name])
      | .error e =>
          (.error ("Error retrieving table schema: " ++ e), tr ++ [.describeTable table_name])

/-- `update_table_schema` (lines 76-89): open a connection and issue one
`ALTER TABLE ... ADD COLUMN <col> STRING` per column.  Each statement is
wrapped in its own try/except (lines 82-85), so a per-column failure only
prints and the loop continues: every column is attempted no matter how the
others fare, and the per-column outcomes (`env.alter_ok`) influence nothing
the caller can observe.  A connection failure is caught by the outer
try/except and returns `false`; otherwise returns `true`. -/
def update_table_schema (env : Env) (table_name : String) (new_columns : List String) :
    Bool × List Effect :=
  match get_databricks_connection env.config env.alter_conn_ok true with
  | (.error _, tr) => (false, tr)
  | (.ok _, tr) => (true, tr ++ new_columns.map (fun col => .alterAddColumn table_name col))

/-- `os.path.basename` applied to the object key (line 106). -/
def basename (p : String) : String :=
  (p.splitOn "/").getLastD p

/-- The outcome of `s3_client.download_file(S3_BUCKET, file_path, ...)`
(line 108): with no bucket configured, boto3 raises a parameter-validation
error; otherwise the object-store oracle decides. -/
def downloadResult (env : Env) : Except FetchError (List (List String)) :=
  match env.config.s3_bucket with
  | none => .error (.other "Parameter validation failed: invalid bucket name None")
  | some _ => env.s3_object

/-- The success payload (lines 145-151): exactly the five fields of the dict
literal the handler returns. -/
structure SuccessPayload where
  data : List (List (String × Option String))
  csv_columns : List String
  table_columns : List String
  missing_columns : List String
  total_rows : Nat
deriving Repr, DecidableEq

/-- An HTTP response body: either the success dict, or the single-field
`detail` object FastAPI renders for an `HTTPException`. -/
inductive Body where
  | success (payload : SuccessPayload)
  | detail (msg : String)
deriving Repr, DecidableEq

/-- An HTTP response: status code and JSON body. -/
structure Response where
  status : Nat
  body : Body
deriving Repr, DecidableEq

/-- Everything observable about one request: the response, the ordered trace
of external effects, and whether the local temporary file still exists when
the handler returns. -/
structure Outcome where
  response : Response
  trace : List Effect
  fileOnDisk : Bool
deriving Repr, DecidableEq

/-- The request handler `read_csv_from_s3` (lines 91-161), translated
clause by clause.  `file_path` and `target_table` are query parameters with
the defaults of line 92 (`none` models an omitted parameter).  Pipeline:
create the S3 client (a failure is an HTTP 500); download the object (any
failure becomes an HTTP 404, line 111); parse it with pandas inside a
`try/finally` whose `finally` removes the temporary file (lines 113-124,
parse failure becomes an HTTP 400); query the current schema, degrading to
the empty schema when the query raises (lines 126-132); compute the missing
columns (line 135); when some are missing, call `update_table_schema` and
ignore its result (lines 138-143); return the success dict (lines
145-151). -/
def read_csv_from_s3 (env : Env) (file_path : Option String) (target_table : Option String) :
    Outcome :=
  let fp := file_path.getD "customers-100.csv"
  let tt := target_table.getD "workspace.default.customers"
  let local_file_path := basename fp
  if env.s3_client_ok then
    match downloadResult env with
    | .error s3_error =>
        { response :=
            { status := 404
              body := .detail ("Could not download file from S3: " ++ s3_error.message) }
          trace := [.downloadFile env.config.s3_bucket fp]
          fileOnDisk := fileOnDiskAfter [.downloadFile env.config.s3_bucket fp] }
    | .ok content =>
        let fileTrace : List Effect :=
          [.downloadFile env.config.s3_bucket fp, .createLocalFile local_file_path,
            .removeTempFile local_file_path]
        match parseCsv content with
        | .error csv_error =>
            { response :=
                { status := 400, body := .detail ("Could not read CSV file: " ++ csv_error) }
              trace := fileTrace
              fileOnDisk := fileOnDiskAfter fileTrace }
        | .ok df =>
            let q := get_table_schema env tt
            let current_schema := schemaOrEmpty q.1
            let missing_columns := missingColumns df.columns current_schema
            let alter_trace : List Effect :=
              if missing_columns.isEmpty then []
              else (update_table_schema env tt missing_columns).2
            let trace := fileTrace ++ q.2 ++ alter_trace
            { response :=
                { status := 200
                  body := .success
                    { data := recordsOf df
                      csv_columns := df.columns
                      table_columns := current_schema
                      missing_columns := missing_columns
                      total_rows := df.rows.length } }
              trace := trace
              fileOnDisk := fileOnDiskAfter trace }
  else
    { response := { status := 500, body := .detail "Error connecting to S3" }
      trace := []
      fileOnDisk := fileOnDiskAfter [] }

/-! ## Sample configuration and environments for witnesses -/

/-- A fully populated configuration. -/
def sampleConfig : Config :=
  { aws_access_key_id := some "AKIA"
    aws_secret_access_key := some "SECRET"
    aws_region := "us-east-2"
    s3_bucket := some "my-bucket"
    databricks_host := some "dbc.example.com"
    databricks_token := some "dapi12345"
    databricks_http_path := some "warehouses-abc" }

/-- Sample object content: header `A,B,C` and one data row `1,2,3`. -/
def sampleContent : List (List String) := [["A", "B", "C"], ["1", "2", "3"]]

/-- The table pandas parses out of `sampleContent`. -/
def dfSample : CsvTable := { columns := ["A", "B", "C"], rows := [["1", "2", "3"]] }

/-- A healthy environment: every external call succeeds, the remote schema
already has columns `A` and `B`. -/
def sampleEnv : Env :=
  { config := sampleConfig
    s3_client_ok := true
    s3_object := .ok sampleContent
    query_conn_ok := true
    alter_conn_ok := true
    describe_rows := .ok [("A", "string"), ("B", "string")]
    alter_ok := fun _ => true }

/-! ## Helper lemmas -/

theorem missingColumns_empty_schema (cols : List String) :
    missingColumns cols [] = cols := by
  rw [missingColumns, List.filter_eq_self]
  intro a _
  rfl

theorem alteredColumns_append (l₁ l₂ : List Effect) :
    alteredColumns (l₁ ++ l₂) = alteredColumns l₁ ++ alteredColumns l₂ := by
  simp [alteredColumns, List.filterMap_append]

theorem alteredColumns_map_alter (t : String) (cols : List String) :
    alteredColumns (cols.map fun col => Effect.alterAddColumn t col) = cols := by
  induction cols with
  | nil => rfl
  | cons c cs ih => simpa [alteredColumns, List.filterMap_cons] using ih

theorem alteredColumns_conn (cfg : Config) (b fa : Bool) :
    alteredColumns (get_databricks_connection cfg b fa).2 = [] := by
  unfold get_databricks_connection
  cases cfg.databricks_token <;> cases cfg.databricks_host <;> cases b <;> rfl

theorem alteredColumns_get_table_schema (env : Env) (tt : String) :
    alteredColumns (get_table_schema env tt).2 = [] := by
  rcases env with ⟨cfg, s3ok, obj, qok, aok, dr, altf⟩
  rcases cfg with ⟨ak, sk, rg, bk, host, tok, path⟩
  cases tok <;> cases host <;> cases qok <;> cases dr <;> rfl

/-! ## C1 -/

/-- C1: the computed missing-column list is the set-difference of the CSV
columns minus the schema columns (membership), listed in the CSV column
order (a sublist of the CSV columns), without duplicates when the CSV
columns are unique (as the parser guarantees); and on the concrete instance
of CSV columns `A,B,C` against schema `A,B` it is exactly `[C]`. -/
theorem C1_missing_is_ordered_set_difference (cols schema : List String)
    (hnd : cols.Nodup) :
    (∀ c, c ∈ missingColumns cols schema ↔ c ∈ cols ∧ c ∉ schema)
    ∧ (missingColumns cols schema).Sublist cols
    ∧ (missingColumns cols schema).Nodup
    ∧ missingColumns ["A", "B", "C"] ["A", "B"] = ["C"] := by
  refine ⟨?_, List.filter_sublist _, hnd.filter _, by decide⟩
  intro c
  simp [missingColumns, List.mem_filter]

/-- Witness for C1 at CSV columns `[A,B,C]` and schema `[X]`. -/
theorem C1_witness :
    (["A", "B", "C"] : List String).Nodup
    ∧ ((∀ c, c ∈ missingColumns ["A", "B", "C"] ["X"]
          ↔ c ∈ ["A", "B", "C"] ∧ c ∉ ["X"])
        ∧ (missingColumns ["A", "B", "C"] ["X"]).Sublist ["A", "B", "C"]
        ∧ (missingColumns ["A", "B", "C"] ["X"]).Nodup
        ∧ missingColumns ["A", "B", "C"] ["A", "B"] = ["C"]) :=
  ⟨by decide, C1_missing_is_ordered_set_difference ["A", "B", "C"] ["X"] (by decide)⟩

/-! ## C2 -/

/-- C2: when the CSV is fetched and parsed successfully but the schema query
fails, the handler continues with an empty schema: status 200,
`table_columns = []`, and `missing_columns` equal to all CSV columns. -/
theorem C2_schema_query_failure_degrades (env : Env) (fp tt : String)
    (content : List (List String)) (df : CsvTable)
    (hs3 : env.s3_client_ok = true)
    (hdl : downloadResult env = .ok content)
    (hp : parseCsv content = .ok df)
    (hq : ∃ e, (get_table_schema env tt).1 = .error e) :
    ∃ p, (read_csv_from_s3 env (some fp) (some tt)).response
        = ⟨200, .success p⟩
      ∧ p.table_columns = [] ∧ p.missing_columns = df.columns := by
  obtain ⟨e, hq⟩ := hq
  have hresp : (read_csv_from_s3 env (some fp) (some tt)).response
      = ⟨200, .success
          { data := recordsOf df
            csv_columns := df.columns
            table_columns := []
            missing_columns := df.columns
            total_rows := df.rows.length }⟩ := by
    simp [read_csv_from_s3, hs3, hdl, hp, hq, schemaOrEmpty, missingColumns_empty_schema]
  exact ⟨_, hresp, rfl, rfl⟩

/-- Witness for C2: a concrete run in which the Databricks connection fails,
so the schema query raises and is degraded to the empty schema. -/
theorem C2_witness :
    ∃ p, (read_csv_from_s3 { sampleEnv with query_conn_ok := false }
          (some "data.csv") (some "tbl")).response
        = ⟨200, .success p⟩
      ∧ p.table_columns = [] ∧ p.missing_columns = dfSample.columns :=
  C2_schema_query_failure_degrades { sampleEnv with query_conn_ok := false }
    "data.csv" "tbl" sampleContent dfSample rfl rfl rfl ⟨_, rfl⟩

/-! ## C3 -/

theorem alteredColumns_update (env : Env) (tt : String) (cols : List String)
    (hu : (update_table_schema env tt cols).1 = true) :
    alteredColumns (update_table_schema env tt cols).2 = cols := by
  rcases env with ⟨cfg, s3ok, obj, qok, aok, dr, altf⟩
  rcases cfg with ⟨ak, sk, rg, bk, host, tok, path⟩
  cases tok with
  | none => simp [update_table_schema, get_databricks_connection] at hu
  | some tokv =>
    cases host with
    | none => simp [update_table_schema, get_databricks_connection] at hu
    | some hostv =>
      cases aok with
      | false => simp [update_table_schema, get_databricks_connection] at hu
      | true =>
        show alteredColumns ([Effect.connectDatabricks true]
            ++ cols.map fun col => Effect.alterAddColumn tt col) = cols
        rw [alteredColumns_append, alteredColumns_map_alter]
        rfl

/-- C3: schema evolution never fails the request and every missing column is
attempted independently: on any run that reaches the evolution stage, the
response is a 200 whose `missing_columns` lists every missing column, no
matter how the alteration went; whenever the alteration connection succeeds
(`update_table_schema` returns `true`), an `ALTER TABLE ... ADD COLUMN` is
issued for every missing column, whatever the per-column outcomes; and the
per-column outcome oracle has no influence on the outcome at all. -/
theorem C3_alteration_failures_never_fail_request (env : Env) (fp tt : String)
    (content : List (List String)) (df : CsvTable)
    (hs3 : env.s3_client_ok = true)
    (hdl : downloadResult env = .ok content)
    (hp : parseCsv content = .ok df) :
    ∃ p, (read_csv_from_s3 env (some fp) (some tt)).response = ⟨200, .success p⟩
      ∧ p.missing_columns
          = missingColumns df.columns (schemaOrEmpty (get_table_schema env tt).1)
      ∧ ((update_table_schema env tt
            (missingColumns df.columns (schemaOrEmpty (get_table_schema env tt).1))).1
              = true →
          alteredColumns (read_csv_from_s3 env (some fp) (some tt)).trace
            = missingColumns df.columns (schemaOrEmpty (get_table_schema env tt).1))
      ∧ (∀ f : String → Bool,
          read_csv_from_s3 { env with alter_ok := f } (some fp) (some tt)
            = read_csv_from_s3 env (some fp) (some tt)) := by
  have hresp : (read_csv_from_s3 env (some fp) (some tt)).response
      = ⟨200, .success
          { data := recordsOf df
            csv_columns := df.columns
            table_columns := schemaOrEmpty (get_table_schema env tt).1
            missing_columns :=
              missingColumns df.columns (schemaOrEmpty (get_table_schema env tt).1)
            total_rows := df.rows.length }⟩ := by
    simp [read_csv_from_s3, hs3, hdl, hp]
  have htrace : (read_csv_from_s3 env (some fp) (some tt)).trace
      = ([Effect.downloadFile env.config.s3_bucket fp,
          Effect.createLocalFile (basename fp), Effect.removeTempFile (basename fp)]
          ++ (get_table_schema env tt).2
          ++ (if (missingColumns df.columns
                (schemaOrEmpty (get_table_schema env tt).1)).isEmpty then []
              else (update_table_schema env tt
                (missingColumns df.columns
                  (schemaOrEmpty (get_table_schema env tt).1))).2)) := by
    simp [read_csv_from_s3, hs3, hdl, hp]
  refine ⟨_, hresp, rfl, ?_, fun f => rfl⟩
  intro hu
  rw [htrace, alteredColumns_append, alteredColumns_append,
    alteredColumns_get_table_schema]
  cases hm : (missingColumns df.columns
      (schemaOrEmpty (get_table_schema env tt).1)).isEmpty
  · rw [if_neg (by decide : ¬ (false = true)), alteredColumns_update env tt _ hu]
    simp [alteredColumns]
  · have hnil : missingColumns df.columns (schemaOrEmpty (get_table_schema env tt).1)
        = [] := List.isEmpty_iff.mp hm
    rw [hnil]
    simp [alteredColumns]

/-- An environment for the C3 witness: the remote schema has only column
`A`, so `B` and `C` are missing, and the per-column oracle lets `B` succeed
while `C` fails. -/
def envPartialAlter : Env :=
  { sampleEnv with
    describe_rows := .ok [("A", "string")]
    alter_ok := fun c => c == "B" }

/-- Witness for C3: with two missing columns of which one alteration fails,
the run still ends in the 200 of the theorem. -/
theorem C3_witness :
    ∃ p, (read_csv_from_s3 envPartialAlter (some "data.csv") (some "tbl")).response
        = ⟨200, .success p⟩
      ∧ p.missing_columns
          = missingColumns dfSample.columns
              (schemaOrEmpty (get_table_schema envPartialAlter "tbl").1)
      ∧ ((update_table_schema envPartialAlter "tbl"
            (missingColumns dfSample.columns
              (schemaOrEmpty (get_table_schema envPartialAlter "tbl").1))).1 = true →
          alteredColumns (read_csv_from_s3 envPartialAlter
              (some "data.csv") (some "tbl")).trace
            = missingColumns dfSample.columns
                (schemaOrEmpty (get_table_schema envPartialAlter "tbl").1))
      ∧ (∀ f : String → Bool,
          read_csv_from_s3 { envPartialAlter with alter_ok := f }
              (some "data.csv") (some "tbl")
            = read_csv_from_s3 envPartialAlter (some "data.csv") (some "tbl")) :=
  C3_alteration_failures_never_fail_request envPartialAlter "data.csv" "tbl"
    sampleContent dfSample rfl rfl rfl

/-! ## C4 -/

theorem get_table_schema_no_alter_phase (env : Env) (tt : String) :
    ((get_table_schema env tt).2.all fun e => !(e.isAlterPhase)) = true := by
  rcases env with ⟨cfg, s3ok, obj, qok, aok, dr, altf⟩
  rcases cfg with ⟨ak, sk, rg, bk, host, tok, path⟩
  cases tok <;> cases host <;> cases qok <;> cases dr <;> rfl

theorem alteredColumns_update_nil (env : Env) (tt : String) :
    alteredColumns (update_table_schema env tt []).2 = [] := by
  rcases env with ⟨cfg, s3ok, obj, qok, aok, dr, altf⟩
  rcases cfg with ⟨ak, sk, rg, bk, host, tok, path⟩
  cases tok <;> cases host <;> cases aok <;> rfl

/-- C4: when the computed missing-column set is empty, the handler performs
no alteration-phase effect at all — no `ALTER TABLE` statement and no
Databricks connection opened for alteration; and `update_table_schema`
applied to an empty column list issues zero alteration statements. -/
theorem C4_no_op_fast_path (env : Env) (fp tt : String)
    (content : List (List String)) (df : CsvTable)
    (hs3 : env.s3_client_ok = true)
    (hdl : downloadResult env = .ok content)
    (hp : parseCsv content = .ok df)
    (hmiss : missingColumns df.columns (schemaOrEmpty (get_table_schema env tt).1) = []) :
    ((read_csv_from_s3 env (some fp) (some tt)).trace.all
        fun e => !(e.isAlterPhase)) = true
    ∧ alteredColumns (update_table_schema env tt []).2 = [] := by
  refine ⟨?_, alteredColumns_update_nil env tt⟩
  have htrace : (read_csv_from_s3 env (some fp) (some tt)).trace
      = ([Effect.downloadFile env.config.s3_bucket fp,
          Effect.createLocalFile (basename fp), Effect.removeTempFile (basename fp)]
          ++ (get_table_schema env tt).2
          ++ (if (missingColumns df.columns
                (schemaOrEmpty (get_table_schema env tt).1)).isEmpty then []
              else (update_table_schema env tt
                (missingColumns df.columns
                  (schemaOrEmpty (get_table_schema env tt).1))).2)) := by
    simp [read_csv_from_s3, hs3, hdl, hp]
  rw [htrace, hmiss, List.all_append, List.all_append, get_table_schema_no_alter_phase]
  rfl

/-- An environment for the C4 witness: the remote schema already has all
three CSV columns, so nothing is missing. -/
def envNoMissing : Env :=
  { sampleEnv with
    describe_rows := .ok [("A", "string"), ("B", "string"), ("C", "string")] }

/-- Witness for C4: a concrete run with an empty missing-column set. -/
theorem C4_witness :
    ((read_csv_from_s3 envNoMissing (some "data.csv") (some "tbl")).trace.all
        fun e => !(e.isAlterPhase)) = true
    ∧ alteredColumns (update_table_schema envNoMissing "tbl" []).2 = [] :=
  C4_no_op_fast_path envNoMissing "data.csv" "tbl" sampleContent dfSample
    rfl rfl rfl (by decide)

/-! ## C5 -/

theorem foldl_file_no_file (l : List Effect) :
    ∀ s : Bool, (l.all fun e => !(e.isFileEffect)) = true →
      l.foldl
        (fun s e =>
          match e with
          | .createLocalFile _ => true
          | .removeTempFile _ => false
          | _ => s)
        s = s := by
  induction l with
  | nil => intro s _; rfl
  | cons e t ih =>
    intro s h
    rw [List.all_cons, Bool.and_eq_true] at h
    cases e with
    | createLocalFile p => simp [Effect.isFileEffect] at h
    | removeTempFile p => simp [Effect.isFileEffect] at h
    | downloadFile b k => exact ih _ h.2
    | connectDatabricks fa => exact ih _ h.2
    | describeTable t2 => exact ih _ h.2
    | alterAddColumn t2 c => exact ih _ h.2

theorem fileOnDiskAfter_append_no_file (l₁ l₂ : List Effect)
    (h : (l₂.all fun e => !(e.isFileEffect)) = true) :
    fileOnDiskAfter (l₁ ++ l₂) = fileOnDiskAfter l₁ := by
  unfold fileOnDiskAfter
  rw [List.foldl_append]
  exact foldl_file_no_file l₂ _ h

theorem get_table_schema_no_file (env : Env) (tt : String) :
    ((get_table_schema env tt).2.all fun e => !(e.isFileEffect)) = true := by
  rcases env with ⟨cfg, s3ok, obj, qok, aok, dr, altf⟩
  rcases cfg with ⟨ak, sk, rg, bk, host, tok, path⟩
  cases tok <;> cases host <;> cases qok <;> cases dr <;> rfl

theorem update_table_schema_no_file (env : Env) (tt : String) (cols : List String) :
    ((update_table_schema env tt cols).2.all fun e => !(e.isFileEffect)) = true := by
  rcases env with ⟨cfg, s3ok, obj, qok, aok, dr, altf⟩
  rcases cfg with ⟨ak, sk, rg, bk, host, tok, path⟩
  cases tok <;> cases host <;> cases aok <;>
    simp [update_table_schema, get_databricks_connection, Effect.isFileEffect]

/-- C5: on every execution path the local temporary file is gone when the
handler returns (`fileOnDisk = false`: nothing was created on fetch
failure, and `os.remove` ran otherwise), and no remote-database effect
happens before the removal — so the release never depends on a later
stage's success. -/
theorem C5_temp_file_always_released (env : Env) (file_path target_table : Option String) :
    (read_csv_from_s3 env file_path target_table).fileOnDisk = false
    ∧ (((read_csv_from_s3 env file_path target_table).trace.takeWhile
          fun e => !(e.isRemoveTemp)).all fun e => !(e.isDbEffect)) = true := by
  cases hs3 : env.s3_client_ok with
  | false =>
    constructor <;> simp [read_csv_from_s3, hs3, fileOnDiskAfter]
  | true =>
    cases hdl : downloadResult env with
    | error e =>
      constructor <;>
        simp [read_csv_from_s3, hs3, hdl, fileOnDiskAfter, List.takeWhile,
          Effect.isRemoveTemp, Effect.isDbEffect]
    | ok content =>
      cases content with
      | nil =>
        constructor <;>
          simp [read_csv_from_s3, hs3, hdl, parseCsv, fileOnDiskAfter, List.takeWhile,
            Effect.isRemoveTemp, Effect.isDbEffect]
      | cons header rows =>
        constructor
        · simp only [read_csv_from_s3, hs3, hdl, parseCsv]
          rw [fileOnDiskAfter_append_no_file, fileOnDiskAfter_append_no_file]
          · rfl
          · exact get_table_schema_no_file env _
          · split
            · rfl
            · exact update_table_schema_no_file env _ _
        · simp only [read_csv_from_s3, hs3, hdl, parseCsv]
          rfl

/-! ## C6 -/

/-- C6 as stated is false at this input: the download raises an
access-denied error — not object-not-found — yet the handler maps it to 404
(line 111 converts every download exception to 404), where the claim
requires 500 for failures other than object-not-found and malformed CSV. -/
theorem C6_counterexample :
    ({ sampleEnv with s3_object := .error .accessDenied } : Env).s3_object
        = .error .accessDenied
    ∧ (read_csv_from_s3 { sampleEnv with s3_object := .error .accessDenied }
        (some "data.csv") (some "tbl")).response.status = 404
    ∧ (read_csv_from_s3 { sampleEnv with s3_object := .error .accessDenied }
        (some "data.csv") (some "tbl")).response.status ≠ 500 :=
  ⟨rfl, rfl, by decide⟩

/-- C6 amended: every failing request gets a single-field `detail` body, and
the status is 404 exactly when the object download fails — for any cause,
not only object-not-found —, 400 exactly when the CSV is malformed, and 500
exactly when creating the object-store client fails. -/
theorem C6_amended_status_mapping (env : Env) (fp tt : String) :
    ((read_csv_from_s3 env (some fp) (some tt)).response.status = 404
      ↔ env.s3_client_ok = true ∧ ∃ e, downloadResult env = .error e)
    ∧ ((read_csv_from_s3 env (some fp) (some tt)).response.status = 400
      ↔ env.s3_client_ok = true
        ∧ ∃ c, downloadResult env = .ok c ∧ ∃ e2, parseCsv c = .error e2)
    ∧ ((read_csv_from_s3 env (some fp) (some tt)).response.status = 500
      ↔ env.s3_client_ok = false)
    ∧ ((read_csv_from_s3 env (some fp) (some tt)).response.status ≠ 200
      → ∃ m, (read_csv_from_s3 env (some fp) (some tt)).response.body
          = Body.detail m) := by
  cases hs3 : env.s3_client_ok with
  | false =>
    refine ⟨?_, ?_, ?_, ?_⟩ <;> simp [read_csv_from_s3, hs3]
  | true =>
    cases hdl : downloadResult env with
    | error e =>
      refine ⟨?_, ?_, ?_, ?_⟩ <;> simp [read_csv_from_s3, hs3, hdl]
    | ok content =>
      cases content with
      | nil =>
        refine ⟨?_, ?_, ?_, ?_⟩ <;> simp [read_csv_from_s3, hs3, hdl, parseCsv]
      | cons h t =>
        refine ⟨?_, ?_, ?_, ?_⟩ <;> simp [read_csv_from_s3, hs3, hdl, parseCsv]

/-- Witness for C6 (amended): an empty object parses as malformed CSV and
yields a 400. -/
theorem C6_witness :
    (read_csv_from_s3 { sampleEnv with s3_object := .ok [] }
        (some "data.csv") (some "tbl")).response.status = 400 :=
  (C6_amended_status_mapping { sampleEnv with s3_object := .ok [] }
      "data.csv" "tbl").2.1.mpr ⟨rfl, [], rfl, _, rfl⟩

/-! ## C7 -/

/-- C7: a successful request returns exactly the five fields of lines
145-151: `data` is the parsed rows in file order, `csv_columns` the header
columns in header order (the parsed content is the header followed by the
data rows), `table_columns` the queried (possibly degraded) schema,
`missing_columns` the computed diff, and `total_rows` the number of data
rows. -/
theorem C7_success_response_fields (env : Env) (fp tt : String)
    (content : List (List String)) (df : CsvTable)
    (hs3 : env.s3_client_ok = true)
    (hdl : downloadResult env = .ok content)
    (hp : parseCsv content = .ok df) :
    content = df.columns :: df.rows
    ∧ (read_csv_from_s3 env (some fp) (some tt)).response
        = ⟨200, .success
            { data := recordsOf df
              csv_columns := df.columns
              table_columns := schemaOrEmpty (get_table_schema env tt).1
              missing_columns :=
                missingColumns df.columns (schemaOrEmpty (get_table_schema env tt).1)
              total_rows := df.rows.length }⟩ := by
  constructor
  · cases content with
    | nil => exact absurd hp (by simp [parseCsv])
    | cons hcol t =>
      have hp2 : ({ columns := hcol, rows := t } : CsvTable) = df := by
        simpa [parseCsv] using hp
      rw [← hp2]
  · simp [read_csv_from_s3, hs3, hdl, hp]

/-- Witness for C7: the healthy sample run. -/
theorem C7_witness :
    sampleContent = dfSample.columns :: dfSample.rows
    ∧ (read_csv_from_s3 sampleEnv (some "data.csv") (some "tbl")).response
        = ⟨200, .success
            { data := recordsOf dfSample
              csv_columns := dfSample.columns
              table_columns := schemaOrEmpty (get_table_schema sampleEnv "tbl").1
              missing_columns :=
                missingColumns dfSample.columns
                  (schemaOrEmpty (get_table_schema sampleEnv "tbl").1)
              total_rows := dfSample.rows.length }⟩ :=
  C7_success_response_fields sampleEnv "data.csv" "tbl" sampleContent dfSample
    rfl rfl rfl

/-! ## C8 -/

/-- C8 as stated is false: a request that omits `file_path` is not rejected —
line 92 gives the parameter the default `customers-100.csv`, so the handler
proceeds, downloads that default key, and here returns 200. -/
theorem C8_counterexample :
    (read_csv_from_s3 sampleEnv none none).response.status = 200
    ∧ Effect.downloadFile (some "my-bucket") "customers-100.csv"
        ∈ (read_csv_from_s3 sampleEnv none none).trace :=
  ⟨rfl, by decide⟩

/-- C8 amended: both request parameters are optional; omitting `file_path`
behaves exactly like passing `customers-100.csv`, and omitting
`target_table` behaves exactly like passing
`workspace.default.customers`. -/
theorem C8_amended_defaults (env : Env) (fp tt : Option String) :
    read_csv_from_s3 env none tt
        = read_csv_from_s3 env (some "customers-100.csv") tt
    ∧ read_csv_from_s3 env fp none
        = read_csv_from_s3 env fp (some "workspace.default.customers") :=
  ⟨rfl, rfl⟩

/-! ## C9 -/

/-- The sample environment with the Databricks token absent. -/
def envNoToken : Env :=
  { sampleEnv with config := { sampleConfig with databricks_token := none } }

/-- The sample environment with the S3 bucket absent. -/
def envNoBucket : Env :=
  { sampleEnv with config := { sampleConfig with s3_bucket := none } }

/-- C9 as stated is false: with the required `DATABRICKS_TOKEN` absent, the
connection raises, but the handler swallows the schema-query failure
(lines 129-132) and answers 200 with an empty `table_columns` — the absence
never surfaces as a startup or request failure. -/
theorem C9_counterexample :
    envNoToken.config.databricks_token = none
    ∧ (read_csv_from_s3 envNoToken (some "data.csv") (some "tbl")).response
        = ⟨200, .success
            { data := [[("A", some "1"), ("B", some "2"), ("C", some "3")]]
              csv_columns := ["A", "B", "C"]
              table_columns := []
              missing_columns := ["A", "B", "C"]
              total_rows := 1 }⟩ :=
  ⟨rfl, rfl⟩

/-- C9 amended: an absent S3 bucket does surface as a first-request failure
(the download raises and the request answers 404), but an absent Databricks
token or host does not: the schema query degrades to the empty schema and
the request answers 200 with `table_columns = []`. -/
theorem C9_amended_config_absence (env : Env) (fp tt : String) :
    (env.s3_client_ok = true → env.config.s3_bucket = none →
      (read_csv_from_s3 env (some fp) (some tt)).response.status = 404)
    ∧ (env.config.databricks_token = none ∨ env.config.databricks_host = none →
      ∀ content df, env.s3_client_ok = true → downloadResult env = .ok content →
        parseCsv content = .ok df →
        ∃ p, (read_csv_from_s3 env (some fp) (some tt)).response = ⟨200, .success p⟩
          ∧ p.table_columns = []) := by
  constructor
  · intro hs3 hb
    have hdl : downloadResult env
        = .error (.other "Parameter validation failed: invalid bucket name None") := by
      unfold downloadResult
      rw [hb]
    simp [read_csv_from_s3, hs3, hdl]
  · intro habs content df hs3 hdl hp
    have hq : ∃ e, (get_table_schema env tt).1 = .error e := by
      rcases habs with h | h
      · exact ⟨"Error retrieving table schema: Error connecting to Databricks: TypeError: NoneType is not subscriptable",
          by simp [get_table_schema, get_databricks_connection, h]⟩
      · cases htok : env.config.databricks_token with
        | none =>
          exact ⟨"Error retrieving table schema: Error connecting to Databricks: TypeError: NoneType is not subscriptable",
            by simp [get_table_schema, get_databricks_connection, htok]⟩
        | some tokv =>
          exact ⟨"Error retrieving table schema: Error connecting to Databricks: AttributeError: NoneType has no attribute replace",
            by simp [get_table_schema, get_databricks_connection, htok, h]⟩
    obtain ⟨e, hq⟩ := hq
    refine ⟨{ data := recordsOf df
              csv_columns := df.columns
              table_columns := []
              missing_columns := df.columns
              total_rows := df.rows.length }, ?_, rfl⟩
    simp [read_csv_from_s3, hs3, hdl, hp, hq, schemaOrEmpty, missingColumns_empty_schema]

/-- Witness for C9 (amended): the missing-bucket run answers 404, the
missing-token run answers 200 with empty `table_columns`. -/
theorem C9_witness :
    (read_csv_from_s3 envNoBucket (some "data.csv") (some "tbl")).response.status = 404
    ∧ ∃ p, (read_csv_from_s3 envNoToken (some "data.csv") (some "tbl")).response
        = ⟨200, .success p⟩ ∧ p.table_columns = [] :=
  ⟨(C9_amended_config_absence envNoBucket "data.csv" "tbl").1 rfl rfl,
    (C9_amended_config_absence envNoToken "data.csv" "tbl").2 (Or.inl rfl)
      sampleContent dfSample rfl rfl rfl⟩

/-! ## C10 -/

/-- C10: the success response is a function of the fetched CSV and the
pre-alteration schema only — two runs differing solely in the alteration
connection outcome and the per-column alteration outcomes return identical
responses, so `table_columns` always reports the pre-alteration schema and
the boolean result of `update_table_schema` is discarded. -/
theorem C10_response_independent_of_alteration (env : Env) (b : Bool)
    (f : String → Bool) (file_path target_table : Option String) :
    (read_csv_from_s3 { env with alter_conn_ok := b, alter_ok := f }
        file_path target_table).response
      = (read_csv_from_s3 env file_path target_table).response := by
  rcases env with ⟨cfg, s3ok, obj, qok, aok, dr, altf⟩
  rcases cfg with ⟨ak, sk, rg, bk, host, tok, path⟩
  cases s3ok with
  | false => rfl
  | true =>
    cases bk with
    | none => rfl
    | some bkv =>
      cases obj with
      | error e => rfl
      | ok content =>
        cases content with
        | nil => rfl
        | cons h t => rfl

end FastAPIDataBricks
